import Mathlib

/-
Verification of the metro-config-transformers core: a shallow embedding of
`createMetroConfigTransformer` (src/create-metro-config-transformer.ts) and
`composeMetroConfigTransformers` (src/compose-metro-config-transformers.ts).

Modelling conventions:
- A configuration payload is an opaque type `C`; per-unit options are an
  opaque type `O`.  The optional `options?` parameter of JavaScript is
  modelled as `Option O`, with `none` standing for `undefined`.
- A promise is modelled in its settled state as `Except E α`: `Except.ok`
  is a resolved promise, `Except.error` a rejected one.  Errors thrown
  synchronously by a call are the `Except.error` of the call's own result,
  so a fallible call returning a possibly-deferred value has the type
  `Except E (Outcome E C)`.
- The runtime dispatch of the adapter (`typeof input === "function"`,
  `input instanceof Promise`, else plain object) is modelled as an explicit
  tagged union `MValue` with the three corresponding constructors; the three
  branches of the source function map one-to-one onto the three match arms.
-/

namespace MetroConfigTransformers

/-- An `Outcome` is the immediate result of invoking a config-producing
function or mutation: either a configuration value returned synchronously
(`now`), or a promise (`later`), modelled in its settled state. -/
inductive Outcome (E C : Type) : Type where
  | now : C → Outcome E C
  | later : Except E C → Outcome E C

/-- A mutation `(config, options?) => MetroConfig | Promise<MetroConfig>`:
it may throw synchronously (outer `Except.error`), return a plain config
(`Outcome.now`), or return a promise (`Outcome.later`). -/
def Mutation (E C O : Type) : Type :=
  C → Option O → Except E (Outcome E C)

/-- What a promise-shaped input can resolve to: a config function
(sync or async, i.e. returning any `Outcome`) or a plain config object. -/
inductive Resolved (E C : Type) : Type where
  | fn : (C → Except E (Outcome E C)) → Resolved E C
  | cfg : C → Resolved E C

/-- The five Metro config export shapes collapsed along the source's runtime
dispatch: `fn` covers Producer and Deferred Producer (both are callables),
`promise` covers Deferred Direct and Deferred-Wrapped Producer, and `obj`
is a Direct configuration object. -/
inductive MValue (E C : Type) : Type where
  | fn : (C → Except E (Outcome E C)) → MValue E C
  | promise : Except E (Resolved E C) → MValue E C
  | obj : C → MValue E C

/-- Semantics of `promise.then(cb)` flattening for a callback returning
`MetroConfig | Promise<MetroConfig>` and possibly throwing: a synchronous
throw rejects, a plain value resolves, a returned promise is adopted. -/
def collapse {E C : Type} (r : Except E (Outcome E C)) : Except E C :=
  match r with
  | .error e => .error e
  | .ok (.now c) => .ok c
  | .ok (.later q) => q

/-- The wrapper callable built around a function-shaped input
(create-metro-config-transformer.ts lines 29-36, repeated verbatim at
lines 45-51 for a function resolved from a promise): call the inner
callable; if it throws, the throw propagates before any mutation; if it
returns a promise, chain the mutation onto it with `.then`; if it returns
a plain config, apply the mutation directly. -/
def wrapProducer {E C O : Type} (mutate : Mutation E C O) (options : Option O)
    (inner : C → Except E (Outcome E C)) : C → Except E (Outcome E C) :=
  fun baseConfig =>
    match inner baseConfig with
    | .error e => .error e
    | .ok (.later p) => .ok (.later (p.bind fun config => collapse (mutate config options)))
    | .ok (.now result) => mutate result options

/-- The `.then` callback of the promise branch
(create-metro-config-transformer.ts lines 41-55): a resolved function is
re-wrapped with the same wrapping behaviour; a resolved config object gets
the mutation applied directly, with the result flattened by `.then`. -/
def mutateResolved {E C O : Type} (mutate : Mutation E C O) (options : Option O) :
    Resolved E C → Except E (Resolved E C) :=
  fun r =>
    match r with
    | .fn g => .ok (.fn (wrapProducer mutate options g))
    | .cfg config => (collapse (mutate config options)).map Resolved.cfg

/-- Re-tagging of a mutation result returned directly to the caller
(create-metro-config-transformer.ts line 59): a synchronous throw
propagates, a plain config is a Direct result, a promise is a Deferred
Direct result. -/
def outcomeToValue {E C : Type} (r : Except E (Outcome E C)) : Except E (MValue E C) :=
  r.map fun out =>
    match out with
    | .now c => .obj c
    | .later q => .promise (q.map Resolved.cfg)

/-- Embedding of `createMetroConfigTransformer(mutate)`: the adapted
polymorphic transformer, dispatching on the input's shape exactly as the
source's three branches do. -/
def createMetroConfigTransformer {E C O : Type} (mutate : Mutation E C O) :
    MValue E C → Option O → Except E (MValue E C) :=
  fun input options =>
    match input with
    | .fn f => .ok (.fn (wrapProducer mutate options f))
    | .promise p => .ok (.promise (p.bind (mutateResolved mutate options)))
    | .obj config => outcomeToValue (mutate config options)

/-- A composition entry: a bare transformer, or a `[transformer, options]`
tuple (types.ts `TransformerEntry`).  The tuple's stored options value may
itself be `undefined`, hence `Option O`. -/
inductive TransformerEntry (E C O : Type) : Type where
  | bare : (MValue E C → Option O → Except E (MValue E C)) → TransformerEntry E C O
  | withOptions : (MValue E C → Option O → Except E (MValue E C)) → Option O →
      TransformerEntry E C O

/-- One step of the composer's reduce callback
(compose-metro-config-transformers.ts lines 30-36): a tuple entry calls its
transformer with the stored options, a bare entry calls it with no options
(so the transformer sees `undefined`, i.e. `none`). -/
def applyEntry {E C O : Type} (entry : TransformerEntry E C O) (acc : MValue E C) :
    Except E (MValue E C) :=
  match entry with
  | .withOptions transformer options => transformer acc options
  | .bare transformer => transformer acc none

/-- Embedding of `composeMetroConfigTransformers(...entries)`: a left fold
of the entries over the accumulator, starting from the input
(compose-metro-config-transformers.ts lines 29-36).  A synchronous throw by
any entry aborts the reduce, hence the fold runs in `Except`. -/
def composeMetroConfigTransformers {E C O : Type} (entries : List (TransformerEntry E C O)) :
    MValue E C → Except E (MValue E C) :=
  fun input => entries.foldlM (fun acc entry => applyEntry entry acc) input

/-- Whether an invocation result is a deferred value (a promise). -/
def isDeferredOutcome {E C : Type} : Outcome E C → Bool
  | .now _ => false
  | .later _ => true

/-- Extract the configuration carried by a Direct or resolved Deferred
Direct value, used to observe the final accumulator of a marker chain. -/
def awaitConfig {E : Type} : MValue E (List Nat) → Option (List Nat)
  | .obj c => some c
  | .promise (Except.ok (.cfg c)) => some c
  | _ => none

/-- A marker mutation: appends the tag to the configuration, either
synchronously or as a deferred result depending on `isAsync`. -/
def tagMutation {E O : Type} (tag : Nat) (isAsync : Bool) : Mutation E (List Nat) O :=
  fun config _ =>
    if isAsync then .ok (.later (.ok (config ++ [tag])))
    else .ok (.now (config ++ [tag]))

/-- The chain of bare entries adapting the marker mutations given by
`specs` (each a tag together with its sync/async flavour). -/
def tagEntries {E O : Type} (specs : List (Nat × Bool)) :
    List (TransformerEntry E (List Nat) O) :=
  specs.map fun s => .bare (createMetroConfigTransformer (tagMutation s.1 s.2))

theorem compose_cons {E C O : Type} (e : TransformerEntry E C O)
    (es : List (TransformerEntry E C O)) (input : MValue E C) :
    composeMetroConfigTransformers (e :: es) input
      = (applyEntry e input).bind (composeMetroConfigTransformers es) := by
  cases h : applyEntry e input with
  | error err =>
    simp only [composeMetroConfigTransformers, List.foldlM, h]
    rfl
  | ok v =>
    simp only [composeMetroConfigTransformers, List.foldlM, h]
    rfl

theorem compose_append {E C O : Type} (es fs : List (TransformerEntry E C O))
    (input : MValue E C) :
    composeMetroConfigTransformers (es ++ fs) input
      = (composeMetroConfigTransformers es input).bind
          (composeMetroConfigTransformers fs) := by
  induction es generalizing input with
  | nil => rfl
  | cons e es ih =>
    rw [List.cons_append, compose_cons, compose_cons]
    cases applyEntry e input with
    | error err => rfl
    | ok v => exact ih v

theorem bind_compose_nil {E C O : Type} (x : Except E (MValue E C)) :
    x.bind (composeMetroConfigTransformers ([] : List (TransformerEntry E C O))) = x := by
  cases x <;> rfl

/-- C6: composing zero entries yields the identity: for every input of every
shape, the combined transformer returns that exact input, without throwing. -/
theorem c6_empty_composition_identity :
    ∀ (E C O : Type) (input : MValue E C),
      composeMetroConfigTransformers ([] : List (TransformerEntry E C O)) input
        = Except.ok input :=
  fun _ _ _ _ => rfl

/-- C7: a tuple entry invokes its transformer with exactly the stored options
and a bare entry invokes it with no options; consequently, on a Direct input,
the adapted transformer's mutation observes exactly the stored options in the
tuple case and `undefined` (`none`) in the bare case. -/
theorem c7_options_pass_through :
    ∀ (E C O : Type) (mutate : Mutation E C O) (options : Option O)
      (acc : MValue E C) (config : C),
      applyEntry (.withOptions (createMetroConfigTransformer mutate) options) acc
          = createMetroConfigTransformer mutate acc options ∧
      applyEntry (.bare (createMetroConfigTransformer mutate)) acc
          = createMetroConfigTransformer mutate acc none ∧
      composeMetroConfigTransformers
          [.withOptions (createMetroConfigTransformer mutate) options] (.obj config)
          = outcomeToValue (mutate config options) ∧
      composeMetroConfigTransformers
          [.bare (createMetroConfigTransformer mutate)] (.obj config)
          = outcomeToValue (mutate config none) := by
  intro E C O mutate options acc config
  refine ⟨rfl, rfl, ?_, ?_⟩ <;> rw [compose_cons, bind_compose_nil] <;> rfl

/-- C10: a single-entry chain holding the tuple `[T, undefined]` behaves
identically to the chain holding the bare entry `T`, for every adapted
transformer and every input shape; both equal `T` applied with no options. -/
theorem c10_tuple_undefined_equals_bare :
    ∀ (E C O : Type) (mutate : Mutation E C O) (input : MValue E C),
      composeMetroConfigTransformers
          [.withOptions (createMetroConfigTransformer mutate) none] input
        = composeMetroConfigTransformers
            [.bare (createMetroConfigTransformer mutate)] input ∧
      composeMetroConfigTransformers
          [.withOptions (createMetroConfigTransformer mutate) none] input
        = createMetroConfigTransformer mutate input none := by
  intro E C O mutate input
  exact ⟨rfl, by rw [compose_cons, bind_compose_nil]; rfl⟩

/-- C3: on a Direct input the adapted transformer returns exactly the result
of `mutate (input, options)`: a Direct value when the mutation is
synchronous, a Deferred Direct value exactly when the mutation is deferred,
and the mutation's synchronous throw otherwise. -/
theorem c3_direct_is_mutate :
    ∀ (E C O : Type) (mutate : Mutation E C O) (config : C) (options : Option O),
      createMetroConfigTransformer mutate (.obj config) options
          = outcomeToValue (mutate config options) ∧
      (∀ c, mutate config options = .ok (.now c) →
        createMetroConfigTransformer mutate (.obj config) options = .ok (.obj c)) ∧
      (∀ q, mutate config options = .ok (.later q) →
        createMetroConfigTransformer mutate (.obj config) options
          = .ok (.promise (q.map Resolved.cfg))) ∧
      (∀ e, mutate config options = .error e →
        createMetroConfigTransformer mutate (.obj config) options = .error e) ∧
      (∀ r, createMetroConfigTransformer mutate (.obj config) options
          = .ok (.promise r) → ∃ q, mutate config options = .ok (.later q)) := by
  intro E C O mutate config options
  refine ⟨rfl, ?_, ?_, ?_, ?_⟩
  · intro c h
    show outcomeToValue (mutate config options) = _
    rw [h]; rfl
  · intro q h
    show outcomeToValue (mutate config options) = _
    rw [h]; rfl
  · intro e h
    show outcomeToValue (mutate config options) = _
    rw [h]; rfl
  · intro r h
    cases hm : mutate config options with
    | error e =>
      simp [createMetroConfigTransformer, outcomeToValue, hm, Except.map] at h
    | ok out =>
      cases out with
      | now c =>
        simp [createMetroConfigTransformer, outcomeToValue, hm, Except.map] at h
      | later q => exact ⟨q, rfl⟩

/-- C3 witness: a synchronous mutation appending `1` applied to the Direct
configuration `[0]` yields the Direct configuration `[0, 1]`. -/
theorem c3_direct_is_mutate_witness :
    createMetroConfigTransformer
        (fun (config : List Nat) (_ : Option Nat) =>
          (Except.ok (Outcome.now (config ++ [1])) : Except Nat (Outcome Nat (List Nat))))
        (.obj [0]) none
      = Except.ok (MValue.obj [0, 1]) :=
  (c3_direct_is_mutate Nat (List Nat) Nat _ [0] none).2.1 [0, 1] rfl

/-- C9: the adapter never touches a Direct input except by handing it to the
mutation: its output is a function of `mutate (input, options)` alone, so two
mutations agreeing at the input give identical results, and in this pure
embedding the caller's original value is unchanged after the call. -/
theorem c9_direct_non_mutation :
    ∀ (E C O : Type) (mutate mutate' : Mutation E C O) (config : C) (options : Option O),
      createMetroConfigTransformer mutate (.obj config) options
          = outcomeToValue (mutate config options) ∧
      (mutate config options = mutate' config options →
        createMetroConfigTransformer mutate (.obj config) options
          = createMetroConfigTransformer mutate' (.obj config) options) := by
  intro E C O mutate mutate' config options
  refine ⟨rfl, fun h => ?_⟩
  show outcomeToValue (mutate config options) = outcomeToValue (mutate' config options)
  rw [h]

/-- C9 witness: two distinct mutations (one appends `1`, the other appends
the input's length) agree at the input `[0]` with no options, and the adapted
transformer gives the same result for both there. -/
theorem c9_direct_non_mutation_witness :
    createMetroConfigTransformer
        (fun (config : List Nat) (_ : Option Nat) =>
          (Except.ok (Outcome.now (config ++ [1])) : Except Nat (Outcome Nat (List Nat))))
        (.obj [0]) none
      = createMetroConfigTransformer
          (fun (config : List Nat) (_ : Option Nat) =>
            (Except.ok (Outcome.now (config ++ [config.length]))
              : Except Nat (Outcome Nat (List Nat))))
          (.obj [0]) none :=
  (c9_direct_non_mutation Nat (List Nat) Nat _ _ [0] none).2 rfl

theorem wrapProducer_eq {E C O : Type} (mutate : Mutation E C O) (options : Option O)
    (inner : C → Except E (Outcome E C)) (base : C) :
    wrapProducer mutate options inner base
      = match inner base with
        | .error e => .error e
        | .ok (.later p) =>
            .ok (.later (p.bind fun config => collapse (mutate config options)))
        | .ok (.now result) => mutate result options := rfl

/-- C1: adapting a callable input (Producer or Deferred Producer) returns a
new callable; invoked with a base configuration, its successful result is
deferred iff the inner callable's result is deferred there or the inner
result is immediate and the mutation's result is deferred there; and when the
inner result is deferred, the mutation is applied to the awaited inner
configuration, chained onto the inner promise. -/
theorem c1_callable_deferred_iff :
    ∀ (E C O : Type) (mutate : Mutation E C O)
      (f : C → Except E (Outcome E C)) (options : Option O),
      createMetroConfigTransformer mutate (.fn f) options
          = .ok (.fn (wrapProducer mutate options f)) ∧
      ∀ base : C,
        (∀ out, wrapProducer mutate options f base = .ok out →
          (isDeferredOutcome out = true ↔
            ((∃ p, f base = .ok (.later p)) ∨
             (∃ c q, f base = .ok (.now c) ∧ mutate c options = .ok (.later q))))) ∧
        (∀ p, f base = .ok (.later p) →
          wrapProducer mutate options f base
            = .ok (.later (p.bind fun config => collapse (mutate config options)))) := by
  intro E C O mutate f options
  refine ⟨rfl, fun base => ⟨?_, ?_⟩⟩
  · intro out hout
    rw [wrapProducer_eq] at hout
    cases hf : f base with
    | error e =>
      rw [hf] at hout
      exact absurd hout (by simp)
    | ok o =>
      rw [hf] at hout
      cases o with
      | later p =>
        cases hout
        exact iff_of_true rfl (Or.inl ⟨p, rfl⟩)
      | now c =>
        have hout' : mutate c options = Except.ok out := hout
        constructor
        · intro hdef
          cases out with
          | now c2 => exact absurd hdef (by simp [isDeferredOutcome])
          | later q => exact Or.inr ⟨c, q, rfl, hout'⟩
        · rintro (⟨p, hp⟩ | ⟨c', q, hc', hq⟩)
          · exact absurd hp (by simp)
          · obtain rfl : c = c' := by simpa using hc'
            rw [hq] at hout'
            obtain rfl : Outcome.later q = out := by simpa using hout'
            rfl
  · intro p hp
    rw [wrapProducer_eq, hp]

/-- C1 witness: wrapping a Deferred Producer that resolves `base` to
`base ++ [5]` with a synchronous mutation appending `1`, and invoking the
wrapper at `[0]`, yields a deferred result resolving to `[0, 5, 1]`. -/
theorem c1_callable_deferred_iff_witness :
    wrapProducer
        (fun (config : List Nat) (_ : Option Nat) =>
          (Except.ok (Outcome.now (config ++ [1])) : Except Nat (Outcome Nat (List Nat))))
        none
        (fun base => Except.ok (Outcome.later (Except.ok (base ++ [5])))) [0]
      = Except.ok (Outcome.later (Except.ok [0, 5, 1])) := by
  have h := ((c1_callable_deferred_iff Nat (List Nat) Nat
      (fun config _ => Except.ok (Outcome.now (config ++ [1])))
      (fun base => Except.ok (Outcome.later (Except.ok (base ++ [5])))) none).2 [0]).2
      (Except.ok [0, 5]) rfl
  simpa [collapse, Except.bind] using h

/-- C2: adapting a deferred input returns a deferred computation obtained by
chaining the dispatch callback onto the input promise; a resolved callable
gives a callable with the Producer wrapping behaviour, a resolved direct
configuration gives the mutation applied to it, and the latter case never
resolves to a callable (Deferred Direct stays Deferred Direct). -/
theorem c2_promise_dispatch :
    ∀ (E C O : Type) (mutate : Mutation E C O) (options : Option O)
      (p : Except E (Resolved E C)),
      createMetroConfigTransformer mutate (.promise p) options
          = .ok (.promise (p.bind (mutateResolved mutate options))) ∧
      (∀ g, p = .ok (.fn g) →
        p.bind (mutateResolved mutate options)
          = .ok (.fn (wrapProducer mutate options g))) ∧
      (∀ c, p = .ok (.cfg c) →
        p.bind (mutateResolved mutate options)
            = (collapse (mutate c options)).map Resolved.cfg ∧
        ∀ g, p.bind (mutateResolved mutate options) ≠ .ok (.fn g)) := by
  intro E C O mutate options p
  refine ⟨rfl, ?_, ?_⟩
  · intro g hp
    subst hp
    rfl
  · intro c hp
    subst hp
    refine ⟨rfl, fun g hcontra => ?_⟩
    have heq : (collapse (mutate c options)).map Resolved.cfg
        = .ok (.fn g) := hcontra
    cases hcol : collapse (mutate c options) with
    | error e => rw [hcol] at heq; exact absurd heq (by simp [Except.map])
    | ok c2 => rw [hcol] at heq; simp [Except.map] at heq

/-- C2 witness: a deferred input resolving to the direct configuration `[2]`,
under a deferred mutation appending `9`, dispatches to a deferred computation
resolving to the direct configuration `[2, 9]`. -/
theorem c2_promise_dispatch_witness :
    (Except.ok (Resolved.cfg [2])).bind
        (mutateResolved
          (fun (config : List Nat) (_ : Option Nat) =>
            (Except.ok (Outcome.later (Except.ok (config ++ [9])))
              : Except Nat (Outcome Nat (List Nat)))) none)
      = Except.ok (Resolved.cfg [2, 9]) := by
  have h := ((c2_promise_dispatch Nat (List Nat) Nat
      (fun config _ => Except.ok (Outcome.later (Except.ok (config ++ [9])))) none
      (Except.ok (Resolved.cfg [2]))).2.2 [2] rfl).1
  simpa [collapse, Except.map] using h

/-- C8: for a wrapped callable input, if the inner callable throws at a base
configuration then the wrapper throws the same error there, and if the inner
callable returns a rejected promise then the wrapper returns a promise
rejected with the same error; both conclusions hold for every mutation, so
the mutation is never consulted. -/
theorem c8_inner_failure_propagates :
    ∀ (E C O : Type) (mutate : Mutation E C O) (options : Option O)
      (f : C → Except E (Outcome E C)) (base : C) (e : E),
      createMetroConfigTransformer mutate (.fn f) options
          = .ok (.fn (wrapProducer mutate options f)) ∧
      (f base = .error e → wrapProducer mutate options f base = .error e) ∧
      (f base = .ok (.later (.error e)) →
        wrapProducer mutate options f base = .ok (.later (.error e))) := by
  intro E C O mutate options f base e
  refine ⟨rfl, ?_, ?_⟩
  · intro h
    rw [wrapProducer_eq, h]
  · intro h
    rw [wrapProducer_eq, h]
    rfl

/-- C8 witness: a Producer that throws error `3` at `[0]`, wrapped with a
mutation appending `1`, throws error `3` from the wrapper at `[0]`. -/
theorem c8_inner_failure_propagates_witness :
    wrapProducer
        (fun (config : List Nat) (_ : Option Nat) =>
          (Except.ok (Outcome.now (config ++ [1])) : Except Nat (Outcome Nat (List Nat))))
        none (fun _ => Except.error 3) [0]
      = Except.error 3 :=
  (c8_inner_failure_propagates Nat (List Nat) Nat
      (fun config _ => Except.ok (Outcome.now (config ++ [1])))
      none (fun _ => Except.error 3) [0] 3).2.1 rfl

theorem tagStep {E O : Type} (t : Nat) (b : Bool) (acc : MValue E (List Nat))
    (c : List Nat) (h : awaitConfig acc = some c) :
    ∃ acc', applyEntry
        (TransformerEntry.bare (O := O)
          (createMetroConfigTransformer (tagMutation t b))) acc
      = Except.ok acc' ∧ awaitConfig acc' = some (c ++ [t]) := by
  cases acc with
  | fn f => simp [awaitConfig] at h
  | obj c0 =>
    have hc : c0 = c := by simpa [awaitConfig] using h
    subst hc
    cases b with
    | false => exact ⟨.obj (c0 ++ [t]), rfl, rfl⟩
    | true => exact ⟨.promise (.ok (.cfg (c0 ++ [t]))), rfl, rfl⟩
  | promise p =>
    cases p with
    | error e => simp [awaitConfig] at h
    | ok r =>
      cases r with
      | fn g => simp [awaitConfig] at h
      | cfg c0 =>
        have hc : c0 = c := by simpa [awaitConfig] using h
        subst hc
        cases b with
        | false => exact ⟨.promise (.ok (.cfg (c0 ++ [t]))), rfl, rfl⟩
        | true => exact ⟨.promise (.ok (.cfg (c0 ++ [t]))), rfl, rfl⟩

theorem tagFold {E O : Type} (specs : List (Nat × Bool)) :
    ∀ (acc : MValue E (List Nat)) (c : List Nat), awaitConfig acc = some c →
      ∃ v, composeMetroConfigTransformers (tagEntries (O := O) specs) acc
          = Except.ok v ∧
        awaitConfig v = some (c ++ specs.map Prod.fst) := by
  induction specs with
  | nil =>
    intro acc c h
    exact ⟨acc, rfl, by simpa using h⟩
  | cons s rest ih =>
    intro acc c h
    obtain ⟨acc', hstep, hacc'⟩ := tagStep (E := E) (O := O) s.1 s.2 acc c h
    obtain ⟨v, hv, hav⟩ := ih acc' (c ++ [s.1]) hacc'
    refine ⟨v, ?_, ?_⟩
    · rw [show tagEntries (E := E) (O := O) (s :: rest)
            = TransformerEntry.bare
                (createMetroConfigTransformer (tagMutation s.1 s.2))
              :: tagEntries rest from rfl,
        compose_cons, hstep]
      exact hv
    · rw [hav, List.append_assoc]
      rfl

/-- C4: the combined transformer is a strict left fold (appending an entry
post-composes it onto the previous accumulator), and a chain of marker
transformers, each appending a distinct tag either synchronously or
deferred, always produces a configuration carrying all tags in exact entry
order. -/
theorem c4_left_fold_in_order :
    (∀ (E C O : Type) (es : List (TransformerEntry E C O)) (e : TransformerEntry E C O)
        (input : MValue E C),
      composeMetroConfigTransformers (es ++ [e]) input
        = (composeMetroConfigTransformers es input).bind (applyEntry e)) ∧
    (∀ (E O : Type) (specs : List (Nat × Bool)) (c0 : List Nat),
      ∃ v, composeMetroConfigTransformers (tagEntries (E := E) (O := O) specs)
            (.obj c0)
          = Except.ok v ∧
        awaitConfig v = some (c0 ++ specs.map Prod.fst)) := by
  constructor
  · intro E C O es e input
    rw [compose_append]
    cases composeMetroConfigTransformers es input with
    | error err => rfl
    | ok v =>
      show composeMetroConfigTransformers [e] v = applyEntry e v
      rw [compose_cons, bind_compose_nil]
  · intro E O specs c0
    exact tagFold specs (.obj c0) c0 rfl

/-- C5: a synchronous throw by any entry halts the fold with that same error
regardless of the entries after it, and a rejected deferred accumulator
passes through any chain of adapted transformers unchanged (same rejection,
independent of every mutation in the chain, so none runs). -/
theorem c5_failure_halts_fold :
    (∀ (E C O : Type) (pre post : List (TransformerEntry E C O))
        (entry : TransformerEntry E C O) (input acc : MValue E C) (e : E),
      composeMetroConfigTransformers pre input = Except.ok acc →
      applyEntry entry acc = Except.error e →
      composeMetroConfigTransformers (pre ++ entry :: post) input
        = Except.error e) ∧
    (∀ (E C O : Type) (ms : List (Mutation E C O)) (e : E),
      composeMetroConfigTransformers
          (ms.map fun m => TransformerEntry.bare (createMetroConfigTransformer m))
          (.promise (.error e))
        = Except.ok (.promise (.error e))) := by
  constructor
  · intro E C O pre post entry input acc e hpre hfail
    rw [compose_append, hpre]
    show composeMetroConfigTransformers (entry :: post) acc = Except.error e
    rw [compose_cons, hfail]
    rfl
  · intro E C O ms e
    induction ms with
    | nil => rfl
    | cons m rest ih =>
      rw [List.map_cons, compose_cons,
        show applyEntry
            (TransformerEntry.bare (createMetroConfigTransformer m))
            (MValue.promise (Except.error e))
          = Except.ok (MValue.promise (Except.error e)) from rfl]
      exact ih

/-- C5 witness: with an empty prefix, an entry whose mutation throws error
`7` on the Direct input `[]` makes the one-entry composed chain throw
error `7`. -/
theorem c5_failure_halts_fold_witness :
    composeMetroConfigTransformers
        ([] ++ TransformerEntry.bare
            (createMetroConfigTransformer
              (fun (_ : List Nat) (_ : Option Nat) =>
                (Except.error 7 : Except Nat (Outcome Nat (List Nat)))))
          :: [])
        (MValue.obj [])
      = Except.error 7 :=
  c5_failure_halts_fold.1 Nat (List Nat) Nat [] []
    (TransformerEntry.bare
      (createMetroConfigTransformer (fun _ _ => Except.error 7)))
    (.obj []) (.obj []) 7 rfl rfl

end MetroConfigTransformers
